import Mathlib

/-!
Verification of the rerank request handler (src/apps/api/scripts/rerank.py).

The script checks that the FlagEmbedding library can be loaded (exiting with
status 1 and a diagnostic on stderr when it cannot), deserializes one JSON
request from stdin, reads the fields "query" and "passages", short-circuits
with an empty output when "passages" is falsy, otherwise constructs the
(query, passage) pairs in order, scores the whole batch with the reranker,
wraps a bare scalar score into a one-element list, and prints the scores.

The embedding models the JSON payload as an inductive value; JSON numbers and
scores are carried by rationals (the handler performs no arithmetic on them,
so the carrier does not affect any property stated here).  The raw stdin
content is represented by the result of the json.load attempt, and the
external reranker capability by an opaque function from pair batches to a
scalar-or-list of scores.  Every run also yields a trace recording whether
the input was read, whether the reranker was constructed, and which batches
were passed to it, so that short-circuit and ordering properties are visible.
-/

namespace Rerank

/-- JSON-like structured values produced by deserializing the input stream. -/
inductive Json where
  | null : Json
  | bool (b : Bool) : Json
  | num (x : Rat) : Json
  | str (s : String) : Json
  | arr (elems : List Json) : Json
  | obj (fields : List (String × Json)) : Json

/-- Exceptions the script can raise: json.load failure on malformed input
(the MalformedInputError of the design), a missing dictionary key (the
MissingFieldError of the design), and Python TypeError for ill-typed
subscripting or iteration. -/
inductive PyError where
  | jsonDecodeError : PyError
  | keyError (key : String) : PyError
  | typeError : PyError
  deriving DecidableEq, Repr

/-- The heterogeneous return shape of the reranker's compute_score: a bare
scalar for a degenerate batch, or a list of scores. -/
inductive ScalarOrList where
  | scalar (x : Rat) : ScalarOrList
  | list (xs : List Rat) : ScalarOrList
  deriving DecidableEq, Repr

/-- The external scoring capability: the behavior of the constructed
FlagReranker instance, mapping a batch of pairs to scores (line 39). -/
structure Scorer where
  computeScore : List (Json × Json) → ScalarOrList

/-- The process environment: whether the FlagEmbedding library can be loaded
(lines 17-21), and the behavior of the reranker instance that line 33 would
construct. -/
structure Env where
  flagAvailable : Bool
  reranker : Scorer

/-- The observable result of one run of the script: a JSON payload printed to
stdout, a sys.exit with a code and a stderr diagnostic, or an unhandled
exception propagating to the caller (no payload in the latter two cases). -/
inductive Outcome where
  | output (payload : Json) : Outcome
  | exited (code : Nat) (diagnostic : String) : Outcome
  | raised (e : PyError) : Outcome

/-- Instrumentation of one run: how many times the library load was
attempted, whether stdin was read, whether the FlagReranker was constructed
(line 33), and the batches passed to compute_score (line 39). -/
structure Trace where
  moduleLoadAttempts : Nat
  inputRead : Bool
  scorerAcquired : Bool
  scorerCalls : List (List (Json × Json))

/-- Python truthiness of a JSON value, as tested by line 28 (if not passages). -/
def truthy : Json → Bool
  | .null => false
  | .bool b => b
  | .num x => x != 0
  | .str s => s != ""
  | .arr elems => !elems.isEmpty
  | .obj fields => !fields.isEmpty

/-- Dictionary field lookup; json.load keeps the last binding when a key is
repeated, so the last matching binding wins. -/
def lookupField (fields : List (String × Json)) (k : String) : Option Json :=
  ((fields.filter (fun p => p.1 == k)).getLast?).map (fun p => p.2)

/-- Python subscripting d[k] (lines 25-26): KeyError when the key is absent
from a dict, TypeError when the subscripted value is not a dict. -/
def getItem (v : Json) (k : String) : Except PyError Json :=
  match v with
  | .obj fields =>
    match lookupField fields k with
    | some w => .ok w
    | none => .error (.keyError k)
  | _ => .error .typeError

/-- Python iteration, as used by the comprehension on line 36: lists yield
their elements, strings yield their one-character substrings, dicts yield
their keys; other values raise TypeError. -/
def pyIter : Json → Except PyError (List Json)
  | .arr elems => .ok elems
  | .str s => .ok (s.data.map (fun c => .str (String.mk [c])))
  | .obj fields => .ok (fields.map (fun p => .str p.1))
  | _ => .error .typeError

/-- Lines 42-43: if compute_score returned a bare float, wrap it into a
one-element list; a list is passed through unchanged. -/
def normalizeShape : ScalarOrList → List Rat
  | .scalar x => [x]
  | .list xs => xs

/-- The stderr diagnostic printed on line 20 when FlagEmbedding is missing. -/
def flagEmbeddingDiagnostic : String :=
  "Error: FlagEmbedding not installed. Run: pip install FlagEmbedding"

/-- The script's main (lines 16-45).  The stdin content is given as the
result of the json.load attempt: Except.error () when the stream is not
well-formed JSON (json.load raises), Except.ok v when it parses to v. -/
def main (env : Env) (rawInput : Except Unit Json) : Outcome × Trace :=
  if env.flagAvailable = false then
    (.exited 1 flagEmbeddingDiagnostic,
     { moduleLoadAttempts := 1, inputRead := false, scorerAcquired := false,
       scorerCalls := [] })
  else
    match rawInput with
    | .error _ =>
      (.raised .jsonDecodeError,
       { moduleLoadAttempts := 1, inputRead := true, scorerAcquired := false,
         scorerCalls := [] })
    | .ok inputData =>
      match getItem inputData "query" with
      | .error e =>
        (.raised e,
         { moduleLoadAttempts := 1, inputRead := true, scorerAcquired := false,
           scorerCalls := [] })
      | .ok query =>
        match getItem inputData "passages" with
        | .error e =>
          (.raised e,
           { moduleLoadAttempts := 1, inputRead := true, scorerAcquired := false,
             scorerCalls := [] })
        | .ok passages =>
          if truthy passages = false then
            (.output (.arr []),
             { moduleLoadAttempts := 1, inputRead := true, scorerAcquired := false,
               scorerCalls := [] })
          else
            match pyIter passages with
            | .error e =>
              (.raised e,
               { moduleLoadAttempts := 1, inputRead := true, scorerAcquired := true,
                 scorerCalls := [] })
            | .ok passageList =>
              let pairs := passageList.map (fun p => (query, p))
              let scores := normalizeShape (env.reranker.computeScore pairs)
              (.output (.arr (scores.map Json.num)),
               { moduleLoadAttempts := 1, inputRead := true, scorerAcquired := true,
                 scorerCalls := [pairs] })

/-- A score value is a number in the closed interval from 0 to 1. -/
def scoreInRange (v : Json) : Bool :=
  match v with
  | .num x => decide (0 ≤ x ∧ x ≤ 1)
  | _ => false

/-- A result payload is an array all of whose elements are scores in range. -/
def resultInRange (v : Json) : Bool :=
  match v with
  | .arr elems => elems.all scoreInRange
  | _ => false

/-- All scores of a compute_score return value lie in the unit interval. -/
def rangeNormalized : ScalarOrList → Prop
  | .scalar x => 0 ≤ x ∧ x ≤ 1
  | .list xs => ∀ x ∈ xs, 0 ≤ x ∧ x ≤ 1

/-- The reranker's contract under normalize=True (line 39): every batch is
mapped to scores in the unit interval. -/
def scorerNormalized (s : Scorer) : Prop :=
  ∀ pairs, rangeNormalized (s.computeScore pairs)

/-- When the FlagEmbedding library cannot be loaded, the run exits with
status 1 and the diagnostic, before reading any input. -/
theorem main_unavailable (env : Env) (raw : Except Unit Json)
    (h : env.flagAvailable = false) :
    main env raw =
      (.exited 1 flagEmbeddingDiagnostic,
       { moduleLoadAttempts := 1, inputRead := false, scorerAcquired := false,
         scorerCalls := [] }) := by
  simp [main, h]

/-- When the library loads but json.load fails, the exception propagates. -/
theorem main_malformed (env : Env) (u : Unit)
    (hav : env.flagAvailable = true) :
    main env (.error u) =
      (.raised .jsonDecodeError,
       { moduleLoadAttempts := 1, inputRead := true, scorerAcquired := false,
         scorerCalls := [] }) := by
  simp [main, hav]

/-- When reading the query field raises, the exception propagates. -/
theorem main_query_error (env : Env) (v : Json) (e : PyError)
    (hav : env.flagAvailable = true)
    (hq : getItem v "query" = .error e) :
    main env (.ok v) =
      (.raised e,
       { moduleLoadAttempts := 1, inputRead := true, scorerAcquired := false,
         scorerCalls := [] }) := by
  simp [main, hav, hq]

/-- When reading the passages field raises, the exception propagates. -/
theorem main_passages_error (env : Env) (v q : Json) (e : PyError)
    (hav : env.flagAvailable = true)
    (hq : getItem v "query" = .ok q)
    (hp : getItem v "passages" = .error e) :
    main env (.ok v) =
      (.raised e,
       { moduleLoadAttempts := 1, inputRead := true, scorerAcquired := false,
         scorerCalls := [] }) := by
  simp [main, hav, hq, hp]

/-- When passages is falsy, the run prints the empty array and returns
without constructing the reranker. -/
theorem main_falsy (env : Env) (v q passages : Json)
    (hav : env.flagAvailable = true)
    (hq : getItem v "query" = .ok q)
    (hp : getItem v "passages" = .ok passages)
    (ht : truthy passages = false) :
    main env (.ok v) =
      (.output (.arr []),
       { moduleLoadAttempts := 1, inputRead := true, scorerAcquired := false,
         scorerCalls := [] }) := by
  simp [main, hav, hq, hp, ht]

/-- When passages is truthy but not iterable, the reranker is constructed
and then the pair comprehension raises. -/
theorem main_iter_error (env : Env) (v q passages : Json) (e : PyError)
    (hav : env.flagAvailable = true)
    (hq : getItem v "query" = .ok q)
    (hp : getItem v "passages" = .ok passages)
    (ht : truthy passages = true)
    (hi : pyIter passages = .error e) :
    main env (.ok v) =
      (.raised e,
       { moduleLoadAttempts := 1, inputRead := true, scorerAcquired := true,
         scorerCalls := [] }) := by
  simp [main, hav, hq, hp, ht, hi]

/-- The scored path: the pairs are the query paired with each element of the
iterated passages in order, the whole batch is passed to the reranker in one
call, and the shape-normalized scores are printed. -/
theorem main_run (env : Env) (v q passages : Json) (l : List Json)
    (hav : env.flagAvailable = true)
    (hq : getItem v "query" = .ok q)
    (hp : getItem v "passages" = .ok passages)
    (ht : truthy passages = true)
    (hi : pyIter passages = .ok l) :
    main env (.ok v) =
      (.output (.arr ((normalizeShape
          (env.reranker.computeScore (l.map (fun p => (q, p))))).map Json.num)),
       { moduleLoadAttempts := 1, inputRead := true, scorerAcquired := true,
         scorerCalls := [l.map (fun p => (q, p))] }) := by
  simp [main, hav, hq, hp, ht, hi]

/-- Reading the query field of the canonical two-field request object. -/
theorem getItem_query (q pv : Json) :
    getItem (.obj [("query", q), ("passages", pv)]) "query" = .ok q := by
  simp [getItem, lookupField]

/-- Reading the passages field of the canonical two-field request object. -/
theorem getItem_passages (q pv : Json) :
    getItem (.obj [("query", q), ("passages", pv)]) "passages" = .ok pv := by
  simp [getItem, lookupField]

/-- The scored path specialized to a well-formed request object whose
passages value is a non-empty JSON array. -/
theorem main_scored (env : Env) (q : Json) (l : List Json)
    (hav : env.flagAvailable = true) (hne : l ≠ []) :
    main env (.ok (.obj [("query", q), ("passages", .arr l)])) =
      (.output (.arr ((normalizeShape
          (env.reranker.computeScore (l.map (fun p => (q, p))))).map Json.num)),
       { moduleLoadAttempts := 1, inputRead := true, scorerAcquired := true,
         scorerCalls := [l.map (fun p => (q, p))] }) := by
  have ht : truthy (Json.arr l) = true := by
    simp [truthy, hne]
  exact main_run env _ q (.arr l) l hav (getItem_query q _) (getItem_passages q _) ht rfl

/-- A concrete environment: the library loads and the reranker answers every
batch with the two scores nine tenths and one tenth. -/
def envTwoScores : Env :=
  { flagAvailable := true,
    reranker := { computeScore := fun _ => .list [9/10, 1/10] } }

/-- A concrete environment: the library loads and the reranker answers every
batch with the single-element score list containing one half. -/
def envOneScore : Env :=
  { flagAvailable := true,
    reranker := { computeScore := fun _ => .list [1/2] } }

/-- A concrete environment: the library loads and the reranker answers every
batch with a bare scalar, the degenerate shape for a batch of one. -/
def envScalar : Env :=
  { flagAvailable := true,
    reranker := { computeScore := fun _ => .scalar (7/10) } }

/-- A concrete environment: the library loads and the reranker answers every
batch with scores outside the unit interval. -/
def envWild : Env :=
  { flagAvailable := true,
    reranker := { computeScore := fun _ => .list [5, -3] } }

/-- A concrete environment in which the FlagEmbedding library is missing. -/
def envNoFlag : Env :=
  { flagAvailable := false,
    reranker := { computeScore := fun _ => .list [] } }

/-- C1: for a request whose passages are N strings (N positive), when the
reranker returns a list of N scores for the batch, the run passes to the
reranker exactly the pairs (query, passages[i]) for i in 0..N-1 in input
order, as a single batch, and outputs exactly those scores, a sequence of
length N whose i-th entry is the reranker's score for (query, passages[i]). -/
theorem C1_pairs_and_order_preserved (env : Env) (q : String) (ps : List String)
    (xs : List Rat)
    (hav : env.flagAvailable = true) (hne : ps ≠ [])
    (hs : env.reranker.computeScore (ps.map (fun p => (Json.str q, Json.str p))) =
      .list xs)
    (hlen : xs.length = ps.length) :
    (main env (.ok (.obj [("query", .str q),
        ("passages", .arr (ps.map Json.str))]))).2.scorerCalls =
      [ps.map (fun p => (Json.str q, Json.str p))] ∧
    (main env (.ok (.obj [("query", .str q),
        ("passages", .arr (ps.map Json.str))]))).1 =
      .output (.arr (xs.map Json.num)) ∧
    (xs.map Json.num).length = ps.length := by
  have hne' : ps.map Json.str ≠ [] := by
    simpa using hne
  have hmap : (ps.map Json.str).map (fun p => (Json.str q, p)) =
      ps.map (fun p => (Json.str q, Json.str p)) := by
    simp [List.map_map, Function.comp]
  have h := main_scored env (.str q) (ps.map Json.str) hav hne'
  rw [hmap, hs] at h
  refine ⟨?_, ?_, ?_⟩
  · rw [h]
  · simp [h, normalizeShape]
  · simpa using hlen

/-- C1 at the concrete request of the specification's scenario: query cats
with two passages, reranker returning the scores nine tenths and one tenth. -/
theorem C1_pairs_and_order_preserved_witness :
    (main envTwoScores (.ok (.obj [("query", .str "cats"),
        ("passages", .arr (["cats are mammals", "dogs bark"].map Json.str))]))).2.scorerCalls =
      [["cats are mammals", "dogs bark"].map (fun p => (Json.str "cats", Json.str p))] ∧
    (main envTwoScores (.ok (.obj [("query", .str "cats"),
        ("passages", .arr (["cats are mammals", "dogs bark"].map Json.str))]))).1 =
      .output (.arr (([9/10, 1/10] : List Rat).map Json.num)) ∧
    (([9/10, 1/10] : List Rat).map Json.num).length =
      (["cats are mammals", "dogs bark"] : List String).length :=
  C1_pairs_and_order_preserved envTwoScores "cats" ["cats are mammals", "dogs bark"]
    [9/10, 1/10] rfl (by simp) rfl rfl

/-- C2: a request with a present query and an empty passages array outputs
the empty array, and the reranker is neither constructed nor invoked. -/
theorem C2_empty_passages_short_circuit (env : Env) (q : Json)
    (hav : env.flagAvailable = true) :
    (main env (.ok (.obj [("query", q), ("passages", .arr [])]))).1 =
      .output (.arr []) ∧
    (main env (.ok (.obj [("query", q), ("passages", .arr [])]))).2.scorerAcquired =
      false ∧
    (main env (.ok (.obj [("query", q), ("passages", .arr [])]))).2.scorerCalls =
      [] := by
  have h := main_falsy env _ q (.arr []) hav (getItem_query q _)
    (getItem_passages q _) rfl
  refine ⟨?_, ?_, ?_⟩ <;> rw [h]

/-- C2 at a concrete request with an empty passages array. -/
theorem C2_empty_passages_short_circuit_witness :
    (main envOneScore (.ok (.obj [("query", .str "q"), ("passages", .arr [])]))).1 =
      .output (.arr []) ∧
    (main envOneScore (.ok (.obj [("query", .str "q"),
        ("passages", .arr [])]))).2.scorerAcquired = false ∧
    (main envOneScore (.ok (.obj [("query", .str "q"),
        ("passages", .arr [])]))).2.scorerCalls = [] :=
  C2_empty_passages_short_circuit envOneScore (.str "q") rfl

/-- C3: a request with exactly one passage outputs a one-element sequence
even when the reranker returns a bare scalar for the size-one batch. -/
theorem C3_scalar_wrapped (env : Env) (q p : String) (x : Rat)
    (hav : env.flagAvailable = true)
    (hs : env.reranker.computeScore [(Json.str q, Json.str p)] = .scalar x) :
    (main env (.ok (.obj [("query", .str q), ("passages", .arr [.str p])]))).1 =
      .output (.arr [.num x]) ∧
    ([Json.num x]).length = 1 := by
  have h := main_scored env (.str q) [.str p] hav (by simp)
  simp only [List.map_cons, List.map_nil] at h
  rw [hs] at h
  exact ⟨by simp [h, normalizeShape], rfl⟩

/-- C3 at a concrete one-passage request with a scalar-returning reranker. -/
theorem C3_scalar_wrapped_witness :
    (main envScalar (.ok (.obj [("query", .str "q"),
        ("passages", .arr [.str "a"])]))).1 =
      .output (.arr [.num (7/10)]) ∧
    ([Json.num (7/10)]).length = 1 :=
  C3_scalar_wrapped envScalar "q" "a" (7/10) rfl rfl

/-- C5: for any non-empty passages array and any list of values the reranker
returns for the batch, the run emits exactly those values unchanged, with no
clamping or rescaling, only shape normalization. -/
theorem C5_pass_through (env : Env) (q : Json) (l : List Json) (xs : List Rat)
    (hav : env.flagAvailable = true) (hne : l ≠ [])
    (hs : env.reranker.computeScore (l.map (fun p => (q, p))) = .list xs) :
    (main env (.ok (.obj [("query", q), ("passages", .arr l)]))).1 =
      .output (.arr (xs.map Json.num)) := by
  have h := main_scored env q l hav hne
  rw [hs] at h
  simp [h, normalizeShape]

/-- C5 at a concrete request whose reranker returns values outside the unit
interval: they are emitted unchanged, showing the absence of clamping. -/
theorem C5_pass_through_witness :
    (main envWild (.ok (.obj [("query", .str "q"),
        ("passages", .arr [.str "a", .str "b"])]))).1 =
      .output (.arr (([5, -3] : List Rat).map Json.num)) :=
  C5_pass_through envWild (.str "q") [.str "a", .str "b"] [5, -3] rfl (by simp) rfl

/-- C10: the run never validates the length of the reranker's answer: when
the returned list's length differs from the number of passages, it is still
emitted unchanged as a successful output, whose length differs from the
passage count. -/
theorem C10_no_length_validation (env : Env) (q : Json) (l : List Json)
    (xs : List Rat)
    (hav : env.flagAvailable = true) (hne : l ≠ [])
    (hs : env.reranker.computeScore (l.map (fun p => (q, p))) = .list xs)
    (hmis : xs.length ≠ l.length) :
    (main env (.ok (.obj [("query", q), ("passages", .arr l)]))).1 =
      .output (.arr (xs.map Json.num)) ∧
    (xs.map Json.num).length ≠ l.length := by
  have h := main_scored env q l hav hne
  rw [hs] at h
  exact ⟨by simp [h, normalizeShape], by simpa using hmis⟩

/-- C10 at a concrete request: one passage, two returned scores, emitted as a
two-element output for the one-passage request. -/
theorem C10_no_length_validation_witness :
    (main envTwoScores (.ok (.obj [("query", .str "q"),
        ("passages", .arr [.str "a"])]))).1 =
      .output (.arr (([9/10, 1/10] : List Rat).map Json.num)) ∧
    (([9/10, 1/10] : List Rat).map Json.num).length ≠
      ([Json.str "a"]).length :=
  C10_no_length_validation envTwoScores (.str "q") [.str "a"] [9/10, 1/10]
    rfl (by simp) rfl (by simp)

/-- A list of unit-interval rationals rendered as JSON numbers is a result
payload all of whose entries are in range. -/
theorem resultInRange_of_all (xs : List Rat)
    (h : ∀ x ∈ xs, 0 ≤ x ∧ x ≤ 1) :
    resultInRange (.arr (xs.map Json.num)) = true := by
  simp only [resultInRange, List.all_eq_true, List.mem_map]
  rintro v ⟨x, hx, rfl⟩
  simp only [scoreInRange]
  exact decide_eq_true (h x hx)

/-- Shape normalization preserves membership in the unit interval. -/
theorem normalizeShape_range (r : ScalarOrList) (h : rangeNormalized r) :
    ∀ x ∈ normalizeShape r, 0 ≤ x ∧ x ≤ 1 := by
  cases r with
  | scalar x =>
    intro y hy
    simp only [normalizeShape, List.mem_singleton] at hy
    subst hy
    exact h
  | list xs =>
    intro y hy
    exact h y hy

/-- C4: under the reranker's normalize=True contract (every score it returns
lies in the unit interval), every run that produces an output payload
produces one all of whose entries are numbers in the closed interval from 0
to 1. -/
theorem C4_output_in_unit_interval (env : Env) (raw : Except Unit Json)
    (payload : Json)
    (hnorm : scorerNormalized env.reranker)
    (hout : (main env raw).1 = .output payload) :
    resultInRange payload = true := by
  by_cases hav : env.flagAvailable = true
  · cases raw with
    | error u =>
      rw [main_malformed env u hav] at hout
      simp at hout
    | ok v =>
      cases hq : getItem v "query" with
      | error e =>
        rw [main_query_error env v e hav hq] at hout
        simp at hout
      | ok q =>
        cases hp : getItem v "passages" with
        | error e =>
          rw [main_passages_error env v q e hav hq hp] at hout
          simp at hout
        | ok passages =>
          cases ht : truthy passages with
          | false =>
            rw [main_falsy env v q passages hav hq hp ht] at hout
            simp at hout
            subst hout
            rfl
          | true =>
            cases hi : pyIter passages with
            | error e =>
              rw [main_iter_error env v q passages e hav hq hp ht hi] at hout
              simp at hout
            | ok l =>
              rw [main_run env v q passages l hav hq hp ht hi] at hout
              simp at hout
              subst hout
              exact resultInRange_of_all _ (normalizeShape_range _ (hnorm _))
  · simp only [Bool.not_eq_true] at hav
    rw [main_unavailable env raw hav] at hout
    simp at hout

/-- A concrete environment whose reranker answers every batch with the bare
scalar one half, satisfying the unit-interval contract. -/
def envHalf : Env :=
  { flagAvailable := true,
    reranker := { computeScore := fun _ => .scalar (1/2) } }

/-- C4 at a concrete run: the output payload for a one-passage request under
a contract-satisfying reranker is in range. -/
theorem C4_output_in_unit_interval_witness :
    resultInRange (.arr [.num (1/2)]) = true :=
  C4_output_in_unit_interval envHalf
    (.ok (.obj [("query", .str "q"), ("passages", .arr [.str "a"])]))
    (.arr [.num (1/2)])
    (fun _ => ⟨by norm_num, by norm_num⟩)
    rfl

/-- C6 fails as stated: a request whose query field is present but has the
wrong type (a number, not a string) is not rejected with a KeyError; the run
engages the reranker and produces an output payload. -/
theorem C6_counterexample :
    (main envOneScore (.ok (.obj [("query", .num 5),
        ("passages", .arr [.str "a"])]))).1 =
      .output (.arr [.num (1/2)]) ∧
    (main envOneScore (.ok (.obj [("query", .num 5),
        ("passages", .arr [.str "a"])]))).2.scorerAcquired = true := by
  exact ⟨rfl, rfl⟩

/-- C6 (amended): when the request object lacks the query field or lacks the
passages field, the run raises a KeyError naming one of those two fields
(the MissingFieldError of the design) and produces no result; fields that
are present with the wrong type are not validated. -/
theorem C6_missing_field_raises (env : Env) (fields : List (String × Json))
    (hav : env.flagAvailable = true)
    (habs : lookupField fields "query" = none ∨
      lookupField fields "passages" = none) :
    ∃ k, (main env (.ok (.obj fields))).1 = .raised (.keyError k) ∧
      (k = "query" ∨ k = "passages") := by
  cases hq : lookupField fields "query" with
  | none =>
    refine ⟨"query", ?_, Or.inl rfl⟩
    have hq' : getItem (.obj fields) "query" = .error (.keyError "query") := by
      simp [getItem, hq]
    rw [main_query_error env (.obj fields) (.keyError "query") hav hq']
  | some q =>
    have hpn : lookupField fields "passages" = none := by
      rcases habs with h1 | h2
      · rw [hq] at h1
        exact absurd h1 (by simp)
      · exact h2
    refine ⟨"passages", ?_, Or.inr rfl⟩
    have hq' : getItem (.obj fields) "query" = .ok q := by
      simp [getItem, hq]
    have hp' : getItem (.obj fields) "passages" =
        .error (.keyError "passages") := by
      simp [getItem, hpn]
    rw [main_passages_error env (.obj fields) q (.keyError "passages") hav hq' hp']

/-- C6 (amended) at a concrete request that lacks the passages field. -/
theorem C6_missing_field_raises_witness :
    ∃ k, (main envOneScore (.ok (.obj [("query", .str "q")]))).1 =
      .raised (.keyError k) ∧ (k = "query" ∨ k = "passages") :=
  C6_missing_field_raises envOneScore [("query", .str "q")] rfl (Or.inr rfl)

/-- C7: when the library loads but the input stream is not well-formed JSON,
the run raises the json decode error (the MalformedInputError of the
design), which propagates unhandled: no output payload is produced and the
reranker is never invoked. -/
theorem C7_malformed_propagates (env : Env)
    (hav : env.flagAvailable = true) :
    (main env (.error ())).1 = .raised .jsonDecodeError ∧
    (∀ payload, (main env (.error ())).1 ≠ .output payload) ∧
    (main env (.error ())).2.scorerCalls = [] := by
  have h := main_malformed env () hav
  refine ⟨by rw [h], ?_, by rw [h]⟩
  intro payload hbad
  rw [h] at hbad
  exact absurd hbad (by simp)

/-- C7 at a concrete environment with the library present. -/
theorem C7_malformed_propagates_witness :
    (main envOneScore (.error ())).1 = .raised .jsonDecodeError ∧
    (∀ payload, (main envOneScore (.error ())).1 ≠ .output payload) ∧
    (main envOneScore (.error ())).2.scorerCalls = [] :=
  C7_malformed_propagates envOneScore rfl

/-- C8: when the scoring capability cannot be loaded, the run writes the
diagnostic to the error channel and terminates with exit status 1 (non-zero),
produces no output payload, attempts the load exactly once (never retried),
and never constructs the reranker. -/
theorem C8_capability_unavailable_exits (env : Env) (raw : Except Unit Json)
    (h : env.flagAvailable = false) :
    (main env raw).1 = .exited 1 flagEmbeddingDiagnostic ∧
    (∀ payload, (main env raw).1 ≠ .output payload) ∧
    (main env raw).2.moduleLoadAttempts = 1 ∧
    (main env raw).2.scorerAcquired = false := by
  have hm := main_unavailable env raw h
  refine ⟨by rw [hm], ?_, by rw [hm], by rw [hm]⟩
  intro payload hbad
  rw [hm] at hbad
  exact absurd hbad (by simp)

/-- C8 at a concrete run with a well-formed request but a missing library. -/
theorem C8_capability_unavailable_exits_witness :
    (main envNoFlag (.ok (.obj [("query", .str "q"),
        ("passages", .arr [.str "a"])]))).1 =
      .exited 1 flagEmbeddingDiagnostic ∧
    (∀ payload, (main envNoFlag (.ok (.obj [("query", .str "q"),
        ("passages", .arr [.str "a"])]))).1 ≠ .output payload) ∧
    (main envNoFlag (.ok (.obj [("query", .str "q"),
        ("passages", .arr [.str "a"])]))).2.moduleLoadAttempts = 1 ∧
    (main envNoFlag (.ok (.obj [("query", .str "q"),
        ("passages", .arr [.str "a"])]))).2.scorerAcquired = false :=
  C8_capability_unavailable_exits envNoFlag
    (.ok (.obj [("query", .str "q"), ("passages", .arr [.str "a"])])) rfl

/-- C9: the availability check of the scoring capability precedes any input
handling: for every raw input, malformed or not, empty passages or not, a
missing library makes the run exit with status 1 and the capability
diagnostic without ever reading the input or constructing the reranker, so
no parse error, validation error, or short-circuit is reached. -/
theorem C9_availability_check_first (env : Env) (raw : Except Unit Json)
    (h : env.flagAvailable = false) :
    (main env raw).1 = .exited 1 flagEmbeddingDiagnostic ∧
    (main env raw).2.inputRead = false ∧
    (main env raw).2.scorerAcquired = false := by
  have hm := main_unavailable env raw h
  exact ⟨by rw [hm], by rw [hm], by rw [hm]⟩

/-- C9 at a concrete run whose input stream is malformed: the run still
exits with the capability diagnostic, the input unread. -/
theorem C9_availability_check_first_witness :
    (main envNoFlag (.error ())).1 = .exited 1 flagEmbeddingDiagnostic ∧
    (main envNoFlag (.error ())).2.inputRead = false ∧
    (main envNoFlag (.error ())).2.scorerAcquired = false :=
  C9_availability_check_first envNoFlag (.error ()) rfl

end Rerank
